import Mathlib

/-!
Verification of the `tread` terminal RSS reader's keybinding interpreter and
fuzzy-search ranking engine, shallowly embedded from the TypeScript source
(`src/keybindings/handler.ts`, `src/keybindings/types.ts`,
`src/search/fuzzy.ts`, `src/search/searcher.ts`).

Strings are modelled as Lean `String` (lists of characters); JavaScript
numbers used for scores are modelled as `ℚ` (all score arithmetic in the
source is exact decimal arithmetic); `Date` values are modelled as integer
millisecond timestamps; nullable values as `Option`.
-/

namespace Tread

/-! ### Fuzzy matching — `src/search/fuzzy.ts` -/

/-- Characters of a string, lowercased (JS `String.prototype.toLowerCase`,
which maps each character independently for the characters involved here). -/
def lowerChars (s : String) : List Char :=
  s.data.map Char.toLower

/-- JS `t.indexOf(c, start)`: the first index `≥ start` at which character
`c` occurs in `t`, or `none` when there is no such occurrence. -/
def charIndexFrom (t : List Char) (c : Char) (start : Nat) : Option Nat :=
  ((t.drop start).findIdx? (· == c)).map (· + start)

/-- Result of a successful fuzzy match (`Match` in `fuzzy.ts`). -/
structure FMatch where
  score : ℚ
  indices : List Nat
deriving DecidableEq, Repr

/-- The loop body of `fuzzyMatch`: walks the query characters, carrying the
search start position (`targetIndex`), the accumulated score and the list of
matched indices, exactly as the `for` loop in the source. -/
def fuzzyGo (t : List Char) : List Char → Nat → ℚ → List Nat → Option (ℚ × List Nat)
  | [], _, score, indices => some (score, indices)
  | c :: rest, targetIndex, score, indices =>
    match charIndexFrom t c targetIndex with
    | none => none
    | some found =>
      let score := score + 1
      let score := score +
        (match indices.getLast? with
         | some p => if found = p + 1 then (3 : ℚ) else 0
         | none => 0)
      let score := score +
        (if found = 0 ∨ (t.get? (found - 1)).any (fun pc => [' ', '-', '_', '/'].contains pc)
         then (5 : ℚ) else 0)
      let score := score + (if found = 0 then (10 : ℚ) else 0)
      fuzzyGo t rest (found + 1) score (indices ++ [found])

/-- `fuzzyMatch(query, target)` from `src/search/fuzzy.ts`. -/
def fuzzyMatch (query target : String) : Option FMatch :=
  if query = "" then some ⟨0, []⟩
  else
    let q := lowerChars query
    let t := lowerChars target
    match fuzzyGo t q 0 0 [] with
    | none => none
    | some (score, indices) =>
      some ⟨score - ((t.length : ℚ) - (q.length : ℚ)) * (1 / 10), indices⟩

/-- Spec-side definition (from the claim's wording): the greedily matched
indices of the query characters, each found at or after the position
following the previous match; `none` when some character cannot be found. -/
def specFindIndices (t : List Char) : List Char → Nat → Option (List Nat)
  | [], _ => some []
  | c :: rest, start =>
    match charIndexFrom t c start with
    | none => none
    | some i => (specFindIndices t rest (i + 1)).map (i :: ·)

/-- Spec-side definition: whether a matched position is a word boundary
(index 0, or immediately preceded by a space, dash, underscore or slash). -/
def specWordBoundary (t : List Char) (idx : Nat) : Prop :=
  idx = 0 ∨ (t.get? (idx - 1)).any (fun pc => [' ', '-', '_', '/'].contains pc)

instance (t : List Char) (idx : Nat) : Decidable (specWordBoundary t idx) := by
  unfold specWordBoundary; infer_instance

/-- Spec-side definition: per-character score contribution — +1 base, +3 if
immediately adjacent to the previous matched index, +5 on a word boundary,
+10 additionally at index 0. -/
def specCharScore (t : List Char) (prev : Option Nat) (idx : Nat) : ℚ :=
  1 + (match prev with
       | some p => if idx = p + 1 then (3 : ℚ) else 0
       | none => 0)
    + (if specWordBoundary t idx then (5 : ℚ) else 0)
    + (if idx = 0 then (10 : ℚ) else 0)

/-- Spec-side definition: total score of a list of matched indices,
accumulated per matched character. -/
def specScore (t : List Char) : Option Nat → List Nat → ℚ
  | _, [] => 0
  | prev, i :: rest => specCharScore t prev i + specScore t (some i) rest

/-- Spec-side definition of `fuzzyMatch`, written from the claim: an empty
query matches with score 0 and no indices; otherwise the lowercased query
must greedily embed in the lowercased target, scored per matched character
with the length penalty `0.1 × (len(target) − len(query))` subtracted. -/
def fuzzyMatchSpec (query target : String) : Option FMatch :=
  if query = "" then some ⟨0, []⟩
  else
    let q := lowerChars query
    let t := lowerChars target
    match specFindIndices t q 0 with
    | none => none
    | some idxs =>
      some ⟨specScore t none idxs - ((t.length : ℚ) - (q.length : ℚ)) * (1 / 10), idxs⟩

/-! ### Ranking — `src/search/fuzzy.ts` -/

/-- `ScoredItem<T>` from `fuzzy.ts`. -/
structure ScoredItem (T : Type) where
  item : T
  score : ℚ
  indices : List Nat
deriving DecidableEq, Repr

/-- The comparator used by both `rankMatches` and `Searcher.search`:
JS `(a, b) => b.score - a.score`, i.e. sort descending by score
(JS `Array.prototype.sort` is stable, as is `List.mergeSort`). -/
def scoreDescLE {T : Type} (a b : ScoredItem T) : Bool :=
  decide (b.score ≤ a.score)

/-- `rankMatches(query, items, getSearchString, weight)` from `fuzzy.ts`. -/
def rankMatches {T : Type} (query : String) (items : List T)
    (getSearchString : T → String) (weight : ℚ) : List (ScoredItem T) :=
  (items.filterMap fun item =>
    (fuzzyMatch query (getSearchString item)).map fun m =>
      ⟨item, m.score * weight, m.indices⟩).mergeSort scoreDescLE

/-! ### Searcher — `src/search/searcher.ts` and `src/search/types.ts` -/

/-- `Pane` from `src/keybindings/handler.ts`. -/
inductive Pane where
  | feeds
  | articles
  | article
deriving DecidableEq, Repr

/-- `Command` from `src/search/types.ts` (the `execute` callback and the
`disabled` predicate are behaviour, not data, and no claim depends on them). -/
structure Command where
  id : String
  name : String
  description : String
  keybind : Option String := none
  panes : Option (List Pane) := none
deriving DecidableEq, Repr

/-- `FeedConfig` from `src/config/types.ts`. -/
structure FeedConfig where
  name : String
  url : String
deriving DecidableEq, Repr

/-- `Article` from `src/db/types.ts`; `Date` values are millisecond
timestamps. -/
structure Article where
  id : String
  feedUrl : String
  title : String
  link : Option String := none
  content : Option String := none
  publishedAt : Option Int := none
  readAt : Option Int := none
  fetchedAt : Int := 0
deriving DecidableEq, Repr

inductive SearchResultType where
  | command
  | feed
  | article
deriving DecidableEq, Repr

inductive MatchedIn where
  | title
  | content
deriving DecidableEq, Repr

/-- The `data` payload of a `SearchResult`. -/
inductive SearchData where
  | command (c : Command)
  | feed (f : FeedConfig)
  | article (a : Article)
deriving DecidableEq, Repr

/-- `SearchResult` from `src/search/types.ts`. -/
structure SearchResult where
  type : SearchResultType
  label : String
  description : String
  weight : ℚ
  score : ℚ
  matchedIn : Option MatchedIn := none
  data : SearchData
deriving DecidableEq, Repr

/-- `SearchWeights` from `src/search/types.ts`. -/
structure SearchWeights where
  commands : ℚ
  feeds : ℚ
  articleTitles : ℚ
  articleContent : ℚ
deriving DecidableEq, Repr

def DEFAULT_WEIGHTS : SearchWeights :=
  { commands := 10, feeds := 5, articleTitles := 2, articleContent := 1 }

/-- `Searcher.getTimeAgo`, with the current time passed explicitly
(the source reads `Date.now()`); `Math.floor` on an exact integer quotient
is flooring division. -/
def getTimeAgo (now : Int) (date : Option Int) : String :=
  match date with
  | none => ""
  | some thenMs =>
    let diff := now - thenMs
    let seconds := diff.fdiv 1000
    let minutes := seconds.fdiv 60
    let hours := minutes.fdiv 60
    let days := hours.fdiv 24
    let weeks := days.fdiv 7
    let months := days.fdiv 30
    let years := days.fdiv 365
    if years > 0 then toString years ++ "y ago"
    else if months > 0 then toString months ++ "mo ago"
    else if weeks > 0 then toString weeks ++ "w ago"
    else if days > 0 then toString days ++ "d ago"
    else if hours > 0 then toString hours ++ "h ago"
    else if minutes > 0 then toString minutes ++ "m ago"
    else "just now"

/-- JS whitespace characters removed by `String.prototype.trim`. -/
def isJsWhitespace (c : Char) : Bool :=
  c == ' ' || c == '\t' || c == '\n' || c == '\r' ||
  c.val == 0x0b || c.val == 0x0c || c.val == 0xa0 || c.val == 0x1680 ||
  (0x2000 ≤ c.val && c.val ≤ 0x200a) ||
  c.val == 0x2028 || c.val == 0x2029 || c.val == 0x202f ||
  c.val == 0x205f || c.val == 0x3000 || c.val == 0xfeff

/-- JS `String.prototype.trim`. -/
def jsTrim (s : String) : String :=
  ⟨((s.data.dropWhile isJsWhitespace).reverse.dropWhile isJsWhitespace).reverse⟩

/-- The command pass of `Searcher.search`. -/
def searchCommandResults (w : SearchWeights) (commands : List Command)
    (query : String) : List SearchResult :=
  (rankMatches query commands (fun cmd => cmd.name) w.commands).map fun m =>
    { type := .command, label := m.item.name, description := m.item.description,
      weight := w.commands, score := m.score, matchedIn := none,
      data := .command m.item }

/-- The feed pass of `Searcher.search`. -/
def searchFeedResults (w : SearchWeights) (feeds : List FeedConfig)
    (query : String) : List SearchResult :=
  (rankMatches query feeds (fun feed => feed.name) w.feeds).map fun m =>
    { type := .feed, label := m.item.name, description := m.item.url,
      weight := w.feeds, score := m.score, matchedIn := none,
      data := .feed m.item }

/-- The `titleMatches` intermediate list of `Searcher.search`. -/
def titleMatches (w : SearchWeights) (articles : List Article)
    (query : String) : List (ScoredItem Article) :=
  rankMatches query articles (fun article => article.title) w.articleTitles

/-- The article-title pass of `Searcher.search`. -/
def searchTitleResults (now : Int) (w : SearchWeights) (articles : List Article)
    (query : String) : List SearchResult :=
  (titleMatches w articles query).map fun m =>
    { type := .article, label := m.item.title,
      description := getTimeAgo now m.item.publishedAt,
      weight := w.articleTitles, score := m.score, matchedIn := some .title,
      data := .article m.item }

/-- The article-content pass of `Searcher.search`: articles already matched
by title (same `id`) are skipped. -/
def searchContentResults (now : Int) (w : SearchWeights) (articles : List Article)
    (query : String) : List SearchResult :=
  ((rankMatches query articles (fun article => article.content.getD "")
      w.articleContent).filter fun m =>
    !((titleMatches w articles query).any fun tm => tm.item.id == m.item.id)).map fun m =>
    { type := .article, label := m.item.title,
      description := getTimeAgo now m.item.publishedAt,
      weight := w.articleContent, score := m.score, matchedIn := some .content,
      data := .article m.item }

/-- The concatenated result list of `Searcher.search` before sorting. -/
def searchResultsRaw (now : Int) (w : SearchWeights) (commands : List Command)
    (feeds : List FeedConfig) (articles : List Article) (query : String) :
    List SearchResult :=
  searchCommandResults w commands query ++ searchFeedResults w feeds query ++
    searchTitleResults now w articles query ++
    searchContentResults now w articles query

/-- The comparator of the final sort in `Searcher.search`:
JS `(a, b) => b.score - a.score`. -/
def resultDescLE (a b : SearchResult) : Bool :=
  decide (b.score ≤ a.score)

/-- `Searcher.search(query)` from `src/search/searcher.ts`: blank queries
yield `[]`; otherwise all four passes are concatenated, sorted descending by
score, and truncated to the first 50 entries. -/
def search (now : Int) (w : SearchWeights) (commands : List Command)
    (feeds : List FeedConfig) (articles : List Article) (query : String) :
    List SearchResult :=
  if jsTrim query = "" then []
  else
    ((searchResultsRaw now w commands feeds articles query).mergeSort
      resultDescLE).take 50

/-! ### Keybinding types — `src/keybindings/types.ts` -/

/-- `KeyEvent` from `@opentui/core`, restricted to the fields the handler
reads; absent (`undefined`) fields are `none`, and the `|| false` coercions
on the modifier flags are folded into `Bool`. -/
structure KeyEvent where
  name : Option String := none
  sequence : Option String := none
  ctrl : Bool := false
  meta : Bool := false
  shift : Bool := false
deriving DecidableEq, Repr

/-- `ParsedKeybinding` from `src/keybindings/types.ts`. -/
structure ParsedKeybinding where
  original : String
  key : String
  ctrl : Bool
  meta : Bool
  shift : Bool
  isSequence : Bool
  sequence : Option (List String) := none
  leader : Bool
deriving DecidableEq, Repr

/-- A JS regular-expression line terminator (`.` never matches these). -/
def isLineTerminator (c : Char) : Bool :=
  c == '\n' || c == '\r' || c.val == 0x2028 || c.val == 0x2029

/-- The match of `/^<leader>(.+)$/i` against a binding string: on success,
the captured remainder (nonempty, free of line terminators). -/
def leaderCapture (binding : String) : Option String :=
  let l := binding.data
  if (l.take 8).map Char.toLower = "<leader>".data ∧ l.drop 8 ≠ [] ∧
      (l.drop 8).all (fun c => !isLineTerminator c)
  then some ⟨l.drop 8⟩ else none

/-- The match of `/^([CMS])-(.+)$/i` against a binding string: on success,
the uppercased modifier letter and the captured remainder. -/
def modifierCapture (binding : String) : Option (Char × String) :=
  match binding.data with
  | m :: '-' :: rest =>
    if (m.toLower = 'c' ∨ m.toLower = 'm' ∨ m.toLower = 's') ∧ rest ≠ [] ∧
        rest.all (fun c => !isLineTerminator c)
    then some (m.toUpper, ⟨rest⟩) else none
  | _ => none

/-- The tail of `parseKeybinding` after the optional leader strip:
modifier combos, the `"gg"` sequence, capital letters, then simple keys. -/
def parseKeybindingRest (original : String) (leader : Bool) (binding : String) :
    ParsedKeybinding :=
  match modifierCapture binding with
  | some (m, key) =>
    { original, key, ctrl := m = 'C', meta := m = 'M', shift := m = 'S',
      isSequence := false, leader }
  | none =>
    if binding = "gg" then
      { original, key := "g", ctrl := false, meta := false, shift := false,
        isSequence := true, sequence := some ["g", "g"], leader }
    else
      match binding.data with
      | [c] =>
        if 'A' ≤ c ∧ c ≤ 'Z' then
          { original, key := ⟨[c.toLower]⟩, ctrl := false, meta := false,
            shift := true, isSequence := false, leader }
        else
          { original, key := binding, ctrl := false, meta := false,
            shift := false, isSequence := false, leader }
      | _ =>
        { original, key := binding, ctrl := false, meta := false,
          shift := false, isSequence := false, leader }

/-- `parseKeybinding` from `src/keybindings/types.ts`. -/
def parseKeybinding (binding : String) : ParsedKeybinding :=
  match leaderCapture binding with
  | some key => parseKeybindingRest binding true key
  | none => parseKeybindingRest binding false binding

/-- `GlobalKeybindings` from `src/keybindings/types.ts`. -/
structure GlobalKeybindings where
  quit : List String
  force_quit : List String
  command_palette : List String
  navigate_down : List String
  navigate_up : List String
  jump_top : List String
  jump_bottom : List String
  leader : Option (List String) := none
deriving DecidableEq, Repr

structure FeedsPaneKeybindings where
  select : List String
  refresh : List String
  refresh_all : List String
  next_pane : List String
deriving DecidableEq, Repr

structure ArticlesPaneKeybindings where
  prev_pane : List String
  select : List String
  refresh : List String
  next_pane : List String
deriving DecidableEq, Repr

structure ArticlePaneKeybindings where
  back : List String
  open_browser : List String
  scroll_up : List String
  scroll_down : List String
  page_up : List String
  page_down : List String
  jump_top : List String
  jump_bottom : List String
  next_pane : List String
deriving DecidableEq, Repr

structure KeybindingsConfig where
  global : GlobalKeybindings
  feeds : FeedsPaneKeybindings
  articles : ArticlesPaneKeybindings
  article : ArticlePaneKeybindings
  commands : List (String × List String) := []
deriving DecidableEq, Repr

/-- `DEFAULT_KEYBINDINGS` from `src/keybindings/types.ts`. -/
def DEFAULT_KEYBINDINGS : KeybindingsConfig :=
  { global :=
      { quit := ["q"], force_quit := ["C-c"], command_palette := [":"],
        navigate_down := ["j", "down"], navigate_up := ["k", "up"],
        jump_top := ["gg"], jump_bottom := ["G"] },
    feeds :=
      { select := ["l", "right", "enter"], refresh := ["r"],
        refresh_all := ["R"], next_pane := ["tab"] },
    articles :=
      { prev_pane := ["h", "left"], select := ["l", "right", "enter"],
        refresh := ["r"], next_pane := ["tab"] },
    article :=
      { back := ["h", "left"], open_browser := ["o"],
        scroll_up := ["k", "up"], scroll_down := ["j", "down"],
        page_up := ["C-u"], page_down := ["C-d", "space"],
        jump_top := ["gg"], jump_bottom := ["G"], next_pane := ["tab"] },
    commands := [] }

/-! ### Actions — `src/keybindings/actions.ts` (as produced by the handler) -/

inductive Dir where
  | up
  | down
deriving DecidableEq, Repr

inductive JumpTarget where
  | top
  | bottom
deriving DecidableEq, Repr

inductive Action where
  | navigate (direction : Dir)
  | jump (target : JumpTarget)
  | select
  | back
  | quit
  | refresh
  | refreshAll
  | openInBrowser
  | focusPane (pane : Pane)
  | scroll (direction : Dir) (amount : Nat)
  | pageScroll (direction : Dir)
  | openCommandPalette
  | closeCommandPalette
  | commandPaletteInput (char : String)
  | commandPaletteBackspace
  | commandPaletteNavigate (direction : Dir)
  | commandPaletteSelect
  | commandPalettePaste
  | executeCommand (commandId : String)
deriving DecidableEq, Repr

/-! ### Interpreter state — `KeybindingHandler` in `src/keybindings/handler.ts`

The class fields become an explicit state record. A scheduled timeout is
modelled by the delay it was scheduled with (`some 500` / `some 2000`);
`none` means no timer is pending. -/

def LEADER_TIMEOUT_MS : Nat := 2000

structure HState where
  currentPane : Pane := .feeds
  pendingG : Bool := false
  gTimeout : Option Nat := none
  isCommandPaletteMode : Bool := false
  isFormMode : Bool := false
  keybindings : KeybindingsConfig := DEFAULT_KEYBINDINGS
  leaderActive : Bool := false
  leaderTimeout : Option Nat := none
deriving DecidableEq, Repr

/-- The command registry as seen by the handler
(`commandRegistry.getCommandsForPane` / `getCommandKeybindings`). -/
structure Registry where
  commandsForPane : Pane → List Command
  commandKeybindings : String → List String

def clearPendingG (s : HState) : HState :=
  { s with pendingG := false, gTimeout := none }

def clearLeader (s : HState) : HState :=
  { s with leaderActive := false, leaderTimeout := none }

def activateLeader (s : HState) : HState :=
  { s with leaderActive := true, leaderTimeout := some LEADER_TIMEOUT_MS }

/-- `matchesKeybinding` from `src/keybindings/handler.ts`: the only state it
reads is `this.leaderActive`, passed explicitly. -/
def matchesKeybinding (leaderActive : Bool) (key : KeyEvent) (binding : String) :
    Bool :=
  let parsed := parseKeybinding binding
  if parsed.isSequence then false
  else if parsed.leader ∧ ¬ leaderActive then false
  else if ¬ parsed.leader ∧ leaderActive then false
  else if parsed.ctrl ≠ key.ctrl then false
  else if parsed.meta ≠ key.meta then false
  else if parsed.key = "enter" then
    decide (key.name = some "return" ∨ key.name = some "linefeed")
  else if parsed.key = ":" then
    decide (key.name = some ":" ∨ key.sequence = some ":")
  else
    let originalKey :=
      if parsed.leader then
        (if (binding.data.take 8).map Char.toLower = "<leader>".data
         then (⟨binding.data.drop 8⟩ : String) else binding)
      else binding
    let isSingleUpper : Bool :=
      match originalKey.data with
      | [c] => decide ('A' ≤ c ∧ c ≤ 'Z')
      | _ => false
    if isSingleUpper then
      decide (key.name = some originalKey ∨ key.sequence = some originalKey)
    else if parsed.shift ≠ key.shift then false
    else decide (key.name = some parsed.key)

/-- `matchesAny` from `src/keybindings/handler.ts`. -/
def matchesAny (leaderActive : Bool) (key : KeyEvent) (bindings : List String) :
    Bool :=
  bindings.any (matchesKeybinding leaderActive key)

/-- `hasSequence` from `src/keybindings/handler.ts`. -/
def hasSequence (bindings : List String) : Bool :=
  bindings.any (fun b => (parseKeybinding b).isSequence)

/-- `matchesLeaderKey` from `src/keybindings/handler.ts`: leader bindings
are compared without leader-state or shift consideration. -/
def matchesLeaderKey (kb : KeybindingsConfig) (key : KeyEvent) : Bool :=
  match kb.global.leader with
  | none => false
  | some leaderBindings =>
    leaderBindings.any fun binding =>
      let parsed := parseKeybinding binding
      if parsed.isSequence then false
      else if parsed.ctrl ≠ key.ctrl then false
      else if parsed.meta ≠ key.meta then false
      else decide (key.name = some parsed.key)

/-- The JS truthiness test `!cmd.keybind` (skips both `undefined` and `""`). -/
def keybindTruthy (cmd : Command) : Bool :=
  match cmd.keybind with
  | none => false
  | some s => decide (s ≠ "")

/-- `checkCommandKeybinds` from `src/keybindings/handler.ts`, returning the
id of the first command whose keybinding matches (the accompanying
`clearLeader` happens at the call site in `handleKey`). -/
def checkCommandKeybinds (reg : Registry) (s : HState) (key : KeyEvent) :
    Option String :=
  (reg.commandsForPane s.currentPane).findSome? fun cmd =>
    if keybindTruthy cmd then
      if (reg.commandKeybindings cmd.id).any
          (matchesKeybinding s.leaderActive key)
      then some cmd.id else none
    else none

/-- `handleCommandPaletteKey` from `src/keybindings/handler.ts`: a pure
function of the form-mode flag and the key event. -/
def handleCommandPaletteKey (isFormMode : Bool) (key : KeyEvent) :
    Option Action :=
  if key.name = some "escape" then some .closeCommandPalette
  else if isFormMode then
    if key.name = some "tab" then
      some (.commandPaletteNavigate (if key.shift then .up else .down))
    else if key.name = some "return" ∨ key.name = some "linefeed" then
      some .commandPaletteSelect
    else if key.name = some "backspace" then some .commandPaletteBackspace
    else if key.name = some "up" then some (.commandPaletteNavigate .up)
    else if key.name = some "down" then some (.commandPaletteNavigate .down)
    else
      let char : Option String :=
        match key.sequence with
        | some s => some s
        | none =>
          match key.name with
          | some n => if n.length = 1 then some n else none
          | none => none
      match char with
      | some c =>
        if c ≠ "" ∧ ¬ key.ctrl ∧ ¬ key.meta ∧
            c.data.all (fun ch => 32 ≤ ch.val ∧ ch.val < 127) then
          some (.commandPaletteInput c)
        else none
      | none => none
  else if key.name = some "tab" then
    some (.commandPaletteNavigate (if key.shift then .up else .down))
  else if key.name = some "up" ∨
      (key.name = some "k" ∧ ¬ key.ctrl ∧ ¬ key.meta) then
    some (.commandPaletteNavigate .up)
  else if key.name = some "down" ∨
      (key.name = some "j" ∧ ¬ key.ctrl ∧ ¬ key.meta) then
    some (.commandPaletteNavigate .down)
  else if key.name = some "return" ∨ key.name = some "linefeed" then
    some .commandPaletteSelect
  else if key.name = some "backspace" then some .commandPaletteBackspace
  else if key.name = some "v" ∧ (key.ctrl ∨ key.meta) then
    some .commandPalettePaste
  else if key.name = some "y" ∧ key.ctrl ∧ ¬ key.meta then
    some .commandPalettePaste
  else
    match key.sequence with
    | none => none
    | some s =>
      match s.data with
      | [] => none
      | [ch] =>
        if ¬ key.ctrl ∧ ¬ key.meta ∧ 32 ≤ ch.val ∧ ch.val < 127 then
          some (.commandPaletteInput s)
        else none
      | _ =>
        if ¬ key.ctrl ∧ ¬ key.meta ∧
            s.data.all (fun c => 32 ≤ c.val ∧ c.val < 127) then
          some (.commandPaletteInput s)
        else none

/-- The per-pane dispatch `handleFeedsPane`. -/
def handleFeedsPane (s : HState) (key : KeyEvent) : Option Action :=
  if matchesAny s.leaderActive key s.keybindings.feeds.select then some .select
  else if matchesAny s.leaderActive key s.keybindings.feeds.refresh then
    some .refresh
  else if matchesAny s.leaderActive key s.keybindings.feeds.refresh_all then
    some .refreshAll
  else if matchesAny s.leaderActive key s.keybindings.feeds.next_pane then
    some (.focusPane .articles)
  else none

/-- The per-pane dispatch `handleArticlesPane`. -/
def handleArticlesPane (s : HState) (key : KeyEvent) : Option Action :=
  if matchesAny s.leaderActive key s.keybindings.articles.prev_pane then
    some (.focusPane .feeds)
  else if matchesAny s.leaderActive key s.keybindings.articles.select then
    some .select
  else if matchesAny s.leaderActive key s.keybindings.articles.refresh then
    some .refresh
  else if matchesAny s.leaderActive key s.keybindings.articles.next_pane then
    some (.focusPane .article)
  else none

/-- The per-pane dispatch `handleArticlePane`. -/
def handleArticlePane (s : HState) (key : KeyEvent) : Option Action :=
  if matchesAny s.leaderActive key s.keybindings.article.back then some .back
  else if matchesAny s.leaderActive key s.keybindings.article.open_browser then
    some .openInBrowser
  else if matchesAny s.leaderActive key s.keybindings.article.page_up then
    some (.pageScroll .up)
  else if matchesAny s.leaderActive key s.keybindings.article.page_down then
    some (.pageScroll .down)
  else if matchesAny s.leaderActive key s.keybindings.article.next_pane then
    some (.focusPane .feeds)
  else none

/-- `handleKey` from `src/keybindings/handler.ts`, with the mutable class
state passed and returned explicitly alongside the `Action | null` result. -/
def handleKey (reg : Registry) (s : HState) (key : KeyEvent) :
    HState × Option Action :=
  if ¬ s.isCommandPaletteMode ∧ ¬ s.leaderActive ∧
      matchesAny s.leaderActive key s.keybindings.global.command_palette then
    (s, some .openCommandPalette)
  else if s.isCommandPaletteMode then
    (s, handleCommandPaletteKey s.isFormMode key)
  else if ¬ s.leaderActive ∧ matchesLeaderKey s.keybindings key then
    (activateLeader s, none)
  else
    match checkCommandKeybinds reg s key with
    | some commandId => (clearLeader s, some (.executeCommand commandId))
    | none =>
      if s.leaderActive then (clearLeader s, none)
      else if hasSequence s.keybindings.global.jump_top ∧
          key.name = some "g" ∧ ¬ key.ctrl ∧ ¬ key.meta ∧ ¬ key.shift then
        if s.pendingG then (clearPendingG s, some (.jump .top))
        else ({ s with pendingG := true, gTimeout := some 500 }, none)
      else if s.currentPane = .article ∧
          hasSequence s.keybindings.article.jump_top ∧
          key.name = some "g" ∧ ¬ key.ctrl ∧ ¬ key.meta ∧ ¬ key.shift then
        if s.pendingG then (clearPendingG s, some (.jump .top))
        else ({ s with pendingG := true, gTimeout := some 500 }, none)
      else
        let s := clearPendingG s
        if matchesAny s.leaderActive key s.keybindings.global.quit then
          (s, some
            (if s.currentPane = .article then .back
             else if s.currentPane = .articles then .focusPane .feeds
             else .quit))
        else if matchesAny s.leaderActive key s.keybindings.global.force_quit then
          (s, some .quit)
        else if matchesAny s.leaderActive key s.keybindings.global.navigate_down then
          if s.currentPane = .article ∧
              matchesAny s.leaderActive key s.keybindings.article.scroll_down then
            (s, some (.scroll .down 1))
          else (s, some (.navigate .down))
        else if matchesAny s.leaderActive key s.keybindings.global.navigate_up then
          if s.currentPane = .article ∧
              matchesAny s.leaderActive key s.keybindings.article.scroll_up then
            (s, some (.scroll .up 1))
          else (s, some (.navigate .up))
        else if matchesAny s.leaderActive key s.keybindings.global.jump_bottom then
          (s, some (.jump .bottom))
        else if s.currentPane = .article ∧
            matchesAny s.leaderActive key s.keybindings.article.jump_bottom then
          (s, some (.jump .bottom))
        else
          match s.currentPane with
          | .feeds => (s, handleFeedsPane s key)
          | .articles => (s, handleArticlesPane s key)
          | .article => (s, handleArticlePane s key)

/-! ### Concrete instances used to witness the theorems below -/

/-- An empty command registry. -/
def reg0 : Registry := ⟨fun _ => [], fun _ => []⟩

/-- The handler's initial state (default keybindings, feeds pane). -/
def s0 : HState := {}

/-- A state in command-palette mode. -/
def s1 : HState := { isCommandPaletteMode := true }

/-- A bare "g" key event. -/
def gKey : KeyEvent := { name := some "g", sequence := some "g" }

/-- A bare "q" key event. -/
def qKey : KeyEvent := { name := some "q", sequence := some "q" }

/-- A bare "j" key event. -/
def jKey : KeyEvent := { name := some "j", sequence := some "j" }

/-- A fully malformed key event: no name and no sequence. -/
def noKey : KeyEvent := {}

def cmd0 : Command :=
  { id := "quit", name := "Quit", description := "Exit the application" }

def feed0 : FeedConfig := { name := "Hacker News", url := "https://hn.example" }

def artA : Article :=
  { id := "a1", feedUrl := "f", title := "alpha", content := some "" }

def artB : Article :=
  { id := "a2", feedUrl := "f", title := "zzz", content := some "alpha" }

/-- The title-match entry produced for `artA` by the query "alpha". -/
def resT : SearchResult :=
  { type := .article, label := "alpha", description := "", weight := 2,
    score := 64, matchedIn := some .title, data := .article artA }

/-- The content-match entry produced for `artB` by the query "alpha". -/
def resC : SearchResult :=
  { type := .article, label := "zzz", description := "", weight := 1,
    score := 32, matchedIn := some .content, data := .article artB }

/-! ### Theorems -/

/-- Helper for C1: the loop of `fuzzyMatch` computes the greedy index list of
the spec together with the positional score sum. -/
theorem fuzzyGo_eq_spec (t : List Char) (q : List Char) :
    ∀ (start : Nat) (score : ℚ) (acc : List Nat),
    fuzzyGo t q start score acc =
      match specFindIndices t q start with
      | none => none
      | some more => some (score + specScore t acc.getLast? more, acc ++ more) := by
  induction q with
  | nil =>
    intro start score acc
    simp [fuzzyGo, specFindIndices, specScore]
  | cons c rest ih =>
    intro start score acc
    simp only [fuzzyGo, specFindIndices]
    cases hfind : charIndexFrom t c start with
    | none => simp
    | some found =>
      simp only [ih, List.getLast?_append]
      cases hrest : specFindIndices t rest (found + 1) with
      | none => simp
      | some more =>
        simp only [Option.map_some']
        simp only [specScore, specCharScore, specWordBoundary]
        simp only [List.getLast?_singleton, Option.or_some, Option.some.injEq, Prod.mk.injEq,
          List.append_assoc, List.singleton_append]
        exact ⟨by ring, trivial⟩

/-- C1: `fuzzyMatch(query, target)` is exactly the case-insensitive greedy
subsequence match described by the spec — each query character is found at or
after the position following the previous match, a failed lookup fails the
whole match, each matched character scores +1 plus +3 adjacency, +5 word
boundary and +10 start-of-string bonuses, the penalty
`0.1 × (len(target) − len(query))` is subtracted at the end, and an empty
query matches with score 0 and an empty index list. -/
theorem fuzzyMatch_eq_spec (query target : String) :
    fuzzyMatch query target = fuzzyMatchSpec query target := by
  unfold fuzzyMatch fuzzyMatchSpec
  by_cases hq : query = ""
  · simp [hq]
  · simp only [hq, if_false]
    rw [fuzzyGo_eq_spec]
    cases h : specFindIndices (lowerChars target) (lowerChars query) 0 with
    | none => simp
    | some idxs => simp [sub_eq_add_neg]

/-- C7: `rankMatches` with weight 2 keeps exactly the items kept at weight 1
and assigns each of them exactly double the score (positionally, as lists). -/
theorem rankMatches_weight_double {T : Type} (query : String) (items : List T)
    (keyFn : T → String) :
    rankMatches query items keyFn 2 =
      (rankMatches query items keyFn 1).map
        (fun s => { item := s.item, score := 2 * s.score, indices := s.indices }) := by
  unfold rankMatches
  rw [List.map_mergeSort (s := scoreDescLE) (fun a _ b _ => by
    simp only [scoreDescLE, decide_eq_decide]
    exact (mul_le_mul_left (by norm_num : (0:ℚ) < 2)).symm)]
  congr 1
  rw [List.map_filterMap]
  apply List.filterMap_congr
  intro x _
  cases fuzzyMatch query (keyFn x) with
  | none => rfl
  | some m => simp; ring

/-- C4: `Searcher.search` always returns a list sorted non-increasing by
score, of length at most 50, for every query and every collection sizes. -/
theorem search_sorted_and_bounded (now : Int) (w : SearchWeights)
    (commands : List Command) (feeds : List FeedConfig) (articles : List Article)
    (query : String) :
    List.Pairwise (fun a b => b.score ≤ a.score)
        (search now w commands feeds articles query) ∧
      (search now w commands feeds articles query).length ≤ 50 := by
  unfold search
  by_cases h : jsTrim query = ""
  · simp [h]
  · simp only [h, if_false]
    constructor
    · refine List.Pairwise.sublist (List.take_sublist _ _) ?_
      refine List.Pairwise.imp (fun hab => ?_)
        (List.sorted_mergeSort ?_ ?_ (searchResultsRaw now w commands feeds articles query))
      · exact of_decide_eq_true hab
      · intro a b c hab hbc
        simp only [resultDescLE, decide_eq_true_eq] at *
        exact hbc.trans hab
      · intro a b
        simp only [resultDescLE, Bool.or_eq_true, decide_eq_true_eq]
        exact le_total _ _
    · rw [List.length_take]
      exact min_le_left _ _

/-- C6: `Searcher.search` returns the empty list for every query consisting
only of whitespace (in particular the empty query), whatever the collections. -/
theorem search_blank_returns_empty (now : Int) (w : SearchWeights)
    (commands : List Command) (feeds : List FeedConfig) (articles : List Article)
    (query : String) (h : query.data.all isJsWhitespace = true) :
    search now w commands feeds articles query = [] := by
  have h1 : query.data.dropWhile isJsWhitespace = [] :=
    List.dropWhile_eq_nil_iff.mpr (by simpa [List.all_eq_true] using h)
  have h2 : jsTrim query = "" := by simp [jsTrim, h1]
  unfold search
  simp [h2]

/-- Witness for C6: a two-space query with non-empty commands, feeds and
articles still yields the empty result list. -/
theorem search_blank_returns_empty_witness :
    search 0 DEFAULT_WEIGHTS [cmd0] [feed0] [artA] "  " = [] :=
  search_blank_returns_empty 0 DEFAULT_WEIGHTS [cmd0] [feed0] [artA] "  " (by decide)

/-- Helper for the search witnesses: `rankMatches` evaluates to any already
sorted rendering of its filtered list. -/
theorem rankMatches_eval {T : Type} (query : String) (items : List T)
    (getSearchString : T → String) (weight : ℚ) (l : List (ScoredItem T))
    (h : items.filterMap (fun item =>
        (fuzzyMatch query (getSearchString item)).map fun m =>
          ⟨item, m.score * weight, m.indices⟩) = l)
    (hsorted : List.Pairwise (fun a b => scoreDescLE a b = true) l) :
    rankMatches query items getSearchString weight = l := by
  unfold rankMatches
  rw [h]
  exact List.mergeSort_of_sorted hsorted

/-- C5: within one `Searcher.search` call, a title-match entry and a
content-match entry in the result list never refer to articles with the same
id — every article that matched by title is excluded from the content pass. -/
theorem search_title_content_exclusive (now : Int) (w : SearchWeights)
    (commands : List Command) (feeds : List FeedConfig) (articles : List Article)
    (query : String) (r r' : SearchResult) (a a' : Article)
    (hr : r ∈ search now w commands feeds articles query)
    (hr' : r' ∈ search now w commands feeds articles query)
    (hmt : r.matchedIn = some .title) (hmc : r'.matchedIn = some .content)
    (hda : r.data = .article a) (hda' : r'.data = .article a') :
    a.id ≠ a'.id := by
  unfold search at hr hr'
  by_cases hq : jsTrim query = ""
  · simp [hq] at hr
  · simp only [hq, if_false] at hr hr'
    have hraw : r ∈ searchResultsRaw now w commands feeds articles query :=
      (List.mergeSort_perm _ resultDescLE).mem_iff.mp (List.take_subset _ _ hr)
    have hraw' : r' ∈ searchResultsRaw now w commands feeds articles query :=
      (List.mergeSort_perm _ resultDescLE).mem_iff.mp (List.take_subset _ _ hr')
    unfold searchResultsRaw at hraw hraw'
    simp only [List.mem_append] at hraw hraw'
    have htitle : ∃ m ∈ titleMatches w articles query, m.item = a := by
      rcases hraw with ((h | h) | h) | h
      · obtain ⟨m, _, rfl⟩ := List.mem_map.mp h
        simp at hmt
      · obtain ⟨m, _, rfl⟩ := List.mem_map.mp h
        simp at hmt
      · obtain ⟨m, hm, rfl⟩ := List.mem_map.mp h
        simp only [SearchData.article.injEq] at hda
        exact ⟨m, hm, hda⟩
      · obtain ⟨m, _, rfl⟩ := List.mem_map.mp h
        simp at hmt
    have hexcl : ∀ tm ∈ titleMatches w articles query, tm.item.id ≠ a'.id := by
      rcases hraw' with ((h | h) | h) | h
      · obtain ⟨m, _, rfl⟩ := List.mem_map.mp h
        simp at hmc
      · obtain ⟨m, _, rfl⟩ := List.mem_map.mp h
        simp at hmc
      · obtain ⟨m, _, rfl⟩ := List.mem_map.mp h
        simp at hmc
      · obtain ⟨m, hm, rfl⟩ := List.mem_map.mp h
        obtain ⟨_, hcond⟩ := List.mem_filter.mp hm
        simp only [SearchData.article.injEq] at hda'
        subst hda'
        have hall : ∀ x ∈ titleMatches w articles query, ¬ x.item.id = m.item.id := by
          simpa using hcond
        exact hall
    obtain ⟨m, hmem, hitem⟩ := htitle
    intro heq
    exact hexcl m hmem (hitem ▸ heq)

/-- Witness for C5: searching "alpha" over two articles produces both a
title match (for `artA`) and a content match (for `artB`), and the theorem
applies to them, giving distinct article ids. -/
theorem search_title_content_exclusive_witness :
    resT ∈ search 0 DEFAULT_WEIGHTS [] [] [artA, artB] "alpha" ∧
      resC ∈ search 0 DEFAULT_WEIGHTS [] [] [artA, artB] "alpha" ∧
      artA.id ≠ artB.id := by
  have ht : rankMatches "alpha" [artA, artB] (fun a => a.title) ((2:ℚ)) =
      [⟨artA, 64, [0, 1, 2, 3, 4]⟩] := by
    refine rankMatches_eval _ _ _ _ _ ?_ ?_
    · simp only [artA, artB, List.filterMap_cons, List.filterMap_nil]
      simp [fuzzyMatch, fuzzyGo, charIndexFrom, lowerChars,
        show 'a'.toLower = 'a' from rfl, show 'l'.toLower = 'l' from rfl,
        show 'p'.toLower = 'p' from rfl, show 'h'.toLower = 'h' from rfl,
        show 'z'.toLower = 'z' from rfl]
      norm_num
    · simp [scoreDescLE]
  have hc : rankMatches "alpha" [artA, artB]
      (fun a => a.content.getD "") ((1:ℚ)) = [⟨artB, 32, [0, 1, 2, 3, 4]⟩] := by
    refine rankMatches_eval _ _ _ _ _ ?_ ?_
    · simp only [artA, artB, List.filterMap_cons, List.filterMap_nil]
      simp [fuzzyMatch, fuzzyGo, charIndexFrom, lowerChars,
        show 'a'.toLower = 'a' from rfl, show 'l'.toLower = 'l' from rfl,
        show 'p'.toLower = 'p' from rfl, show 'h'.toLower = 'h' from rfl,
        show 'z'.toLower = 'z' from rfl]
      norm_num
    · simp [scoreDescLE]
  have hcm : rankMatches "alpha" ([] : List Command) (fun c => c.name) ((10:ℚ)) = [] :=
    rankMatches_eval _ _ _ _ _ rfl List.Pairwise.nil
  have hfd : rankMatches "alpha" ([] : List FeedConfig) (fun f => f.name) ((5:ℚ)) = [] :=
    rankMatches_eval _ _ _ _ _ rfl List.Pairwise.nil
  have hsearch : search 0 DEFAULT_WEIGHTS [] [] [artA, artB] "alpha" = [resT, resC] := by
    unfold search searchResultsRaw searchCommandResults searchFeedResults
      searchTitleResults searchContentResults titleMatches DEFAULT_WEIGHTS
    rw [if_neg (by decide)]
    simp only at ht hc hcm hfd ⊢
    rw [ht, hc, hcm, hfd]
    rw [List.mergeSort_of_sorted (by
      simp [resultDescLE, artA, artB, getTimeAgo]
      norm_num)]
    simp [resT, resC, artA, artB, getTimeAgo]
  refine ⟨by rw [hsearch]; simp, by rw [hsearch]; simp, ?_⟩
  exact search_title_content_exclusive 0 DEFAULT_WEIGHTS [] [] [artA, artB] "alpha"
    resT resC artA artB (by rw [hsearch]; simp) (by rw [hsearch]; simp)
    rfl rfl rfl rfl

/-- C9: in palette mode, `handleKey` leaves the interpreter state completely
unchanged and delegates the event to the palette routing, which reads only
the form-mode flag. -/
theorem paletteMode_state_frame (reg : Registry) (s : HState) (key : KeyEvent)
    (h : s.isCommandPaletteMode = true) :
    (handleKey reg s key).1 = s ∧
      (handleKey reg s key).2 = handleCommandPaletteKey s.isFormMode key := by
  unfold handleKey
  simp [h]

/-- Witness for C9: a "j" press in palette mode leaves the state unchanged. -/
theorem paletteMode_state_frame_witness :
    (handleKey reg0 s1 jKey).1 = s1 ∧
      (handleKey reg0 s1 jKey).2 = handleCommandPaletteKey s1.isFormMode jKey :=
  paletteMode_state_frame reg0 s1 jKey rfl

/-- C10: a keybinding whose parsed form is a sequence never matches in
`matchesKeybinding`, for any leader state and any event; hence `matchesAny`
over a list of sequence-only bindings is false for every event. -/
theorem sequence_binding_never_matches (leaderActive : Bool) (key : KeyEvent) :
    (∀ b, (parseKeybinding b).isSequence = true →
        matchesKeybinding leaderActive key b = false) ∧
      ∀ bs, (∀ b ∈ bs, (parseKeybinding b).isSequence = true) →
        matchesAny leaderActive key bs = false := by
  have h1 : ∀ b, (parseKeybinding b).isSequence = true →
      matchesKeybinding leaderActive key b = false := by
    intro b hb
    unfold matchesKeybinding
    simp [hb]
  refine ⟨h1, fun bs hbs => ?_⟩
  exact List.any_eq_false.mpr fun b hb => by simp [h1 b (hbs b hb)]

/-- Witness for C10: the "gg" binding does not match even a bare "g" event,
and a binding list holding only "gg" matches nothing. -/
theorem sequence_binding_never_matches_witness :
    matchesKeybinding false gKey "gg" = false ∧ matchesAny false gKey ["gg"] = false :=
  ⟨(sequence_binding_never_matches false gKey).1 "gg" (by decide),
   (sequence_binding_never_matches false gKey).2 ["gg"] (by decide)⟩

/-- Helper for C2: `checkCommandKeybinds` depends only on the current pane
and the leader flag of the state. -/
theorem checkCommandKeybinds_proj (reg : Registry) (s s' : HState) (key : KeyEvent)
    (h1 : s'.currentPane = s.currentPane) (h2 : s'.leaderActive = s.leaderActive) :
    checkCommandKeybinds reg s' key = checkCommandKeybinds reg s key := by
  unfold checkCommandKeybinds
  rw [h1, h2]

/-- Helper for C2: a bare "g" with no pending flag arms pending-g with the
500 ms expiry and emits nothing. -/
theorem gg_press_fresh (reg : Registry) (s : HState) (key : KeyEvent)
    (hpal : s.isCommandPaletteMode = false)
    (hlead : s.leaderActive = false)
    (hname : key.name = some "g") (hctrl : key.ctrl = false)
    (hmeta : key.meta = false) (hshift : key.shift = false)
    (hnopal : matchesAny s.leaderActive key s.keybindings.global.command_palette = false)
    (hnoleader : matchesLeaderKey s.keybindings key = false)
    (hnocmd : checkCommandKeybinds reg s key = none)
    (hseq : hasSequence s.keybindings.global.jump_top = true)
    (hpend : s.pendingG = false) :
    handleKey reg s key = ({ s with pendingG := true, gTimeout := some 500 }, none) := by
  rw [hlead] at hnopal
  unfold handleKey
  simp [hpal, hlead, hnopal, hnoleader, hnocmd, hseq, hpend, hname, hctrl, hmeta, hshift]

/-- Helper for C2: a bare "g" while a "g" is pending clears the flag and
emits `jump(top)`. -/
theorem gg_press_pending (reg : Registry) (s : HState) (key : KeyEvent)
    (hpal : s.isCommandPaletteMode = false)
    (hlead : s.leaderActive = false)
    (hname : key.name = some "g") (hctrl : key.ctrl = false)
    (hmeta : key.meta = false) (hshift : key.shift = false)
    (hnopal : matchesAny s.leaderActive key s.keybindings.global.command_palette = false)
    (hnoleader : matchesLeaderKey s.keybindings key = false)
    (hnocmd : checkCommandKeybinds reg s key = none)
    (hseq : hasSequence s.keybindings.global.jump_top = true)
    (hpend : s.pendingG = true) :
    handleKey reg s key = (clearPendingG s, some (Action.jump .top)) := by
  rw [hlead] at hnopal
  unfold handleKey
  simp [hpal, hlead, hnopal, hnoleader, hnocmd, hseq, hpend, hname, hctrl, hmeta, hshift]

/-- C2: outside palette mode with the leader unarmed, when a bare "g" matches
no higher-priority rule and jump-top is configured as a sequence, the first
"g" emits nothing and arms the pending flag with the 500 ms expiry, and a
second "g" on the resulting state clears the flag and emits exactly one
`jump(top)` — in any pane. -/
theorem gg_double_press (reg : Registry) (s : HState) (key : KeyEvent)
    (hpal : s.isCommandPaletteMode = false)
    (hlead : s.leaderActive = false)
    (hname : key.name = some "g") (hctrl : key.ctrl = false)
    (hmeta : key.meta = false) (hshift : key.shift = false)
    (hnopal : matchesAny s.leaderActive key s.keybindings.global.command_palette = false)
    (hnoleader : matchesLeaderKey s.keybindings key = false)
    (hnocmd : checkCommandKeybinds reg s key = none)
    (hseq : hasSequence s.keybindings.global.jump_top = true)
    (hpend : s.pendingG = false) :
    (handleKey reg s key).2 = none ∧
      (handleKey reg s key).1.pendingG = true ∧
      (handleKey reg s key).1.gTimeout = some 500 ∧
      (handleKey reg (handleKey reg s key).1 key).2 = some (Action.jump .top) ∧
      (handleKey reg (handleKey reg s key).1 key).1.pendingG = false := by
  have hstep := gg_press_fresh reg s key hpal hlead hname hctrl hmeta hshift hnopal
    hnoleader hnocmd hseq hpend
  have hstep2 := gg_press_pending reg { s with pendingG := true, gTimeout := some 500 } key
    hpal hlead hname hctrl hmeta hshift hnopal hnoleader hnocmd hseq rfl
  rw [hstep]
  simp only [hstep2]
  simp [clearPendingG]

/-- Witness for C2: pressing "g" twice from the initial state (default
keybindings, feeds pane, empty registry) yields null then `jump(top)`. -/
theorem gg_double_press_witness :
    (handleKey reg0 s0 gKey).2 = none ∧
      (handleKey reg0 s0 gKey).1.pendingG = true ∧
      (handleKey reg0 s0 gKey).1.gTimeout = some 500 ∧
      (handleKey reg0 (handleKey reg0 s0 gKey).1 gKey).2 = some (Action.jump .top) ∧
      (handleKey reg0 (handleKey reg0 s0 gKey).1 gKey).1.pendingG = false :=
  gg_double_press reg0 s0 gKey rfl rfl rfl rfl rfl rfl (by decide) (by decide)
    (by decide) (by decide) rfl

/-- C3: when the global quit binding matches and no higher-priority dispatch
step (palette-open, palette mode, leader, command keybinding, pending-g
sequence) applies, `handleKey` emits `back` in the article pane,
`focusPane(feeds)` in the articles pane and `quit` in the feeds pane. -/
theorem quit_binding_by_pane (reg : Registry) (s : HState) (key : KeyEvent)
    (hpal : s.isCommandPaletteMode = false)
    (hlead : s.leaderActive = false)
    (hnopal : matchesAny s.leaderActive key s.keybindings.global.command_palette = false)
    (hnoleader : matchesLeaderKey s.keybindings key = false)
    (hnocmd : checkCommandKeybinds reg s key = none)
    (hgg1 : ¬ (hasSequence s.keybindings.global.jump_top = true ∧ key.name = some "g" ∧
        key.ctrl = false ∧ key.meta = false ∧ key.shift = false))
    (hgg2 : ¬ (s.currentPane = Pane.article ∧
        hasSequence s.keybindings.article.jump_top = true ∧ key.name = some "g" ∧
        key.ctrl = false ∧ key.meta = false ∧ key.shift = false))
    (hquit : matchesAny s.leaderActive key s.keybindings.global.quit = true) :
    (s.currentPane = Pane.article → (handleKey reg s key).2 = some Action.back) ∧
      (s.currentPane = Pane.articles →
        (handleKey reg s key).2 = some (Action.focusPane Pane.feeds)) ∧
      (s.currentPane = Pane.feeds → (handleKey reg s key).2 = some Action.quit) := by
  obtain ⟨cp, pg, gt, pal, fm, kb, la, lt⟩ := s
  dsimp only at hpal hlead hnopal hnoleader hnocmd hgg1 hgg2 hquit ⊢
  subst hpal hlead
  unfold handleKey
  rw [if_neg (by simp [hnopal]), if_neg (by simp), if_neg (by simp [hnoleader]), hnocmd]
  rw [if_neg (by simp), if_neg (by simpa using hgg1), if_neg (by simpa using hgg2)]
  rw [if_pos (by simpa [clearPendingG] using hquit)]
  refine ⟨fun hp => ?_, fun hp => ?_, fun hp => ?_⟩ <;> subst hp <;> simp [clearPendingG]

/-- Witness for C3: with default keybindings, "q" in the feeds pane quits. -/
theorem quit_binding_by_pane_witness :
    (s0.currentPane = Pane.article → (handleKey reg0 s0 qKey).2 = some Action.back) ∧
      (s0.currentPane = Pane.articles →
        (handleKey reg0 s0 qKey).2 = some (Action.focusPane Pane.feeds)) ∧
      (s0.currentPane = Pane.feeds → (handleKey reg0 s0 qKey).2 = some Action.quit) :=
  quit_binding_by_pane reg0 s0 qKey rfl rfl (by decide) (by decide) (by decide)
    (by decide) (by decide) (by decide)

/-- Helper for C8: with no key name and no raw sequence, no single binding
ever matches. -/
theorem matchesKeybinding_no_name_no_seq (la : Bool) (key : KeyEvent) (b : String)
    (hn : key.name = none) (hs : key.sequence = none) :
    matchesKeybinding la key b = false := by
  unfold matchesKeybinding
  simp [hn, hs]

/-- C8: `handleKey` is total — it always returns a state and an optional
action — and a malformed event carrying neither a key name nor a raw
sequence matches no dispatch rule and yields `null`, in every state. -/
theorem handleKey_total_and_null_when_unmatchable (reg : Registry) (s : HState)
    (key : KeyEvent) (hn : key.name = none) (hs : key.sequence = none) :
    (∃ out, handleKey reg s key = out) ∧ (handleKey reg s key).2 = none := by
  refine ⟨⟨_, rfl⟩, ?_⟩
  have hmk : ∀ la b, matchesKeybinding la key b = false := fun la b =>
    matchesKeybinding_no_name_no_seq la key b hn hs
  have hma : ∀ la bs, matchesAny la key bs = false := fun la bs =>
    List.any_eq_false.mpr fun b _ => by simp [hmk]
  have hlk : ∀ kb, matchesLeaderKey kb key = false := by
    intro kb
    unfold matchesLeaderKey
    cases kb.global.leader with
    | none => rfl
    | some bs =>
      refine List.any_eq_false.mpr fun b _ => ?_
      simp [hn]
  have hck : checkCommandKeybinds reg s key = none := by
    unfold checkCommandKeybinds
    refine List.findSome?_eq_none_iff.mpr fun cmd _ => ?_
    simp [hma, hmk]
  have hpc : ∀ fm, handleCommandPaletteKey fm key = none := by
    intro fm
    unfold handleCommandPaletteKey
    simp [hn, hs]
  unfold handleKey
  cases hcp : s.currentPane <;>
    simp [hma, hlk, hck, hpc, hn, hcp, clearPendingG, handleFeedsPane,
      handleArticlesPane, handleArticlePane, apply_ite Prod.snd]

/-- Witness for C8: the empty key event produces no action from the initial
state. -/
theorem handleKey_total_and_null_when_unmatchable_witness :
    (∃ out, handleKey reg0 s0 noKey = out) ∧ (handleKey reg0 s0 noKey).2 = none :=
  handleKey_total_and_null_when_unmatchable reg0 s0 noKey rfl rfl

end Tread
